import Mathlib

/-!
Shallow embedding of `src/pgsignals/utils.py` from the django-pgsignals
repository, together with theorems settling the frozen claims about it.
Every definition is translated from the Python source; the doc comment of
each definition cites the lines of `utils.py` it embeds.  External
collaborators (django settings, the app registry, the database) are
modelled as parameters or explicit state.
-/

/-! ## Operation kinds (utils.py lines 76-102) -/

/-- Embeds `class EventKind(enum.Enum)` (lines 76-79): the closed set of
operation values INSERT, UPDATE, DELETE. -/
inductive EventKind where
  | INSERT
  | UPDATE
  | DELETE
deriving DecidableEq, Repr

/-- Embeds the property `is_create` (lines 81-83): `self is self.INSERT`. -/
def EventKind.is_create : EventKind → Bool
  | EventKind.INSERT => true
  | _ => false

/-- Embeds the property `is_update` (lines 85-87): `self is self.UPDATE`. -/
def EventKind.is_update : EventKind → Bool
  | EventKind.UPDATE => true
  | _ => false

/-- Embeds the property `is_save` (lines 89-91):
`self.is_create or self.is_update`. -/
def EventKind.is_save (k : EventKind) : Bool :=
  k.is_create || k.is_update

/-- Embeds the property `is_delete` (lines 93-95): `self is self.DELETE`. -/
def EventKind.is_delete : EventKind → Bool
  | EventKind.DELETE => true
  | _ => false

/-- Embeds `ALL_EVENTS` (lines 98-102). -/
def ALL_EVENTS : List EventKind :=
  [EventKind.INSERT, EventKind.UPDATE, EventKind.DELETE]

/-- Embeds the `.value` attribute of the enum members (lines 77-79). -/
def EventKind.value : EventKind → String
  | EventKind.INSERT => "INSERT"
  | EventKind.UPDATE => "UPDATE"
  | EventKind.DELETE => "DELETE"

/-! ## JSON values and Python exceptions -/

/-- Values produced by `json.loads`.  Objects are association lists; since
`json.loads` collapses duplicate keys (the last occurrence wins), decoded
objects have distinct keys, so first-match lookup below agrees with Python
dict lookup. -/
inductive Json where
  | null
  | bool (b : Bool)
  | num (n : Int)
  | str (s : String)
  | arr (xs : List Json)
  | obj (kvs : List (String × Json))

/-- Python exceptions that the code in utils.py can raise or catch. -/
inductive PyExc where
  | jsonDecodeError
  | keyError (k : String)
  | typeError
  | valueError
  | nameError (n : String)
deriving DecidableEq, Repr

/-- Lookup in a decoded JSON object, as Python dict subscription on the
dict returned by `json.loads` (keys distinct, see `Json.obj`). -/
def dictLookup (kvs : List (String × Json)) (k : String) : Option Json :=
  (kvs.find? (fun p => p.1 == k)).map (fun p => p.2)

/-- Embeds the enum call `EventKind(value)` (line 154).  A value equal to
one of the member values "INSERT", "UPDATE", "DELETE" (case-sensitive
string comparison) yields that member; an unhashable value (list or dict)
raises TypeError; any other value raises ValueError.  Note that
`json.JSONDecodeError` is a subclass of ValueError, but a plain ValueError
is NOT an instance of `json.JSONDecodeError`. -/
def EventKind.ofValue : Json → Except PyExc EventKind
  | Json.str "INSERT" => Except.ok EventKind.INSERT
  | Json.str "UPDATE" => Except.ok EventKind.UPDATE
  | Json.str "DELETE" => Except.ok EventKind.DELETE
  | Json.arr _ => Except.error PyExc.typeError
  | Json.obj _ => Except.error PyExc.typeError
  | _ => Except.error PyExc.valueError

/-! ## The Event dataclass (utils.py lines 105-111) -/

/-- Embeds `@dataclasses.dataclass class Event` (lines 105-111).  Python
dataclasses do not validate the annotated types at construction time, so
every field except `operation` (which line 154 replaces by an `EventKind`
member before construction) holds the raw decoded JSON value. -/
structure Event where
  txid : Json
  operation : EventKind
  table : Json
  row_before : Json
  row_after : Json

/-- Embeds the call `Event(**_notify)` (line 158) given the dict after the
line 154 assignment replaced the "operation" entry by the EventKind member
`op`.  The generated dataclass init takes exactly the five keyword
arguments txid, operation, table, row_before, row_after, all required:
a missing or an unexpected keyword raises TypeError. -/
def Event.ofKwargs (kvs : List (String × Json)) (op : EventKind) : Except PyExc Event :=
  match dictLookup kvs "txid", dictLookup kvs "table",
        dictLookup kvs "row_before", dictLookup kvs "row_after" with
  | some txid, some table, some rb, some ra =>
      if kvs.length == 5 && (dictLookup kvs "operation").isSome then
        Except.ok ⟨txid, op, table, rb, ra⟩
      else Except.error PyExc.typeError
  | _, _, _, _ => Except.error PyExc.typeError

/-! ## Sender resolution (utils.py lines 269-275) -/

/-- A django model as seen through `apps.get_models()`: the only attribute
utils.py reads is `model._meta.db_table` (line 272, also lines 190 and
198). -/
structure Model where
  db_table : String

/-- Log lines emitted by `_table_to_model`.  The constructor carries the
table-name value interpolated into the message
"Cannot found model for table ..." logged at error level (line 274). -/
inductive LogLine where
  | error_no_model (table_name : Json)

/-- Python equality `model._meta.db_table == table_name` (line 272), where
the left side is a str and the right side is the decoded JSON value stored
in `event.table`: true exactly for an equal string. -/
def pyEqStr (s : String) : Json → Bool
  | Json.str t => s == t
  | _ => false

/-- Embeds `_table_to_model` (lines 269-275): scans `apps.get_models()`
(modelled as the parameter `models`) and returns the first model whose
`db_table` equals the table name; if none matches it logs an error and
returns None — an explicit absent value, not an exception.  The
`functools.lru_cache` decorator only memoises this pure lookup. -/
def _table_to_model (models : List Model) (table_name : Json) :
    Option Model × List LogLine :=
  match models.find? (fun m => pyEqStr m.db_table table_name) with
  | some m => (some m, [])
  | none => (none, [LogLine.error_no_model table_name])

/-! ## Dispatch (utils.py lines 158-177) -/

/-- The five django signals defined in pgsignals.signals and sent by the
listen loop (lines 160-177). -/
inductive Signal where
  | pgsignals_event
  | pgsignals_insert_event
  | pgsignals_insert_or_update_event
  | pgsignals_update_event
  | pgsignals_delete_event
deriving DecidableEq, Repr

/-- Embeds the branch structure of lines 160-177, listing in order the
signals sent for an event of the given operation kind: the generic signal
is always sent (line 160); then `if is_create` sends the insert signal
(line 163); then the chain `if is_save` / `elif is_update` /
`elif is_delete` (lines 167-177) sends at most one further signal. -/
def dispatchSignals (op : EventKind) : List Signal :=
  [Signal.pgsignals_event]
    ++ (if op.is_create then [Signal.pgsignals_insert_event] else [])
    ++ (if op.is_save then [Signal.pgsignals_insert_or_update_event]
        else if op.is_update then [Signal.pgsignals_update_event]
        else if op.is_delete then [Signal.pgsignals_delete_event]
        else [])

/-- Embeds lines 159-177 for one decoded event: the sender is resolved
once by `_table_to_model` (line 159) and the same sender is passed to
every send call, so the sends are exactly `dispatchSignals` paired with
the resolved sender. -/
def dispatchEvent (models : List Model) (ev : Event) :
    List (Option Model × Signal) :=
  (dispatchSignals ev.operation).map
    (fun s => ((_table_to_model models ev.table).1, s))

/-! ## The body of the listen for-loop (utils.py lines 151-177) -/

/-- Embeds the body of `for notify in iter_notifies():` (lines 151-177)
for one notification, as a function of the parse result of
`notify.payload` (`none` models a payload on which `json.loads` raises
`json.JSONDecodeError`).  The try block is lines 153-154; the except
clause (lines 155-156) catches ONLY `json.JSONDecodeError`, logs it and
skips the notification (result `Except.ok none`); every other exception
(KeyError from a missing "operation" key, ValueError or TypeError from the
`EventKind` call, TypeError from subscripting a non-dict or from
`Event(**_notify)` in the else block) propagates out of the loop.  On
success the event is dispatched (lines 158-177). -/
def processNotify (models : List Model) (payload : Option Json) :
    Except PyExc (Option (Event × List (Option Model × Signal))) :=
  match payload with
  | none => Except.ok none
  | some j =>
    match j with
    | Json.obj kvs =>
      match dictLookup kvs "operation" with
      | none => Except.error (PyExc.keyError "operation")
      | some v =>
        match EventKind.ofValue v with
        | Except.error e => Except.error e
        | Except.ok op =>
          match Event.ofKwargs kvs op with
          | Except.error e => Except.error e
          | Except.ok ev => Except.ok (some (ev, dispatchEvent models ev))
    | _ => Except.error PyExc.typeError

/-- Runs the for-loop body over the sequence of payloads the iterator
yields, in order.  Returns the events dispatched before the loop ended,
and the exception that terminated it, if any:  a caught decode error is
skipped and the loop continues; an uncaught exception ends the loop at
that point, so later payloads are never processed. -/
def processAll (models : List Model) :
    List (Option Json) → List (Event × List (Option Model × Signal)) × Option PyExc
  | [] => ([], none)
  | p :: ps =>
    match processNotify models p with
    | Except.error e => ([], some e)
    | Except.ok none => processAll models ps
    | Except.ok (some d) =>
        match processAll models ps with
        | (rest, err) => (d :: rest, err)

/-- Concrete payload with an unrecognized operation string, the failing
input of claim C2: the JSON object with entries operation = "FOO",
txid = 7, table = "books", row_before = null, row_after = null. -/
def fooPayload : Option Json :=
  some (Json.obj [("operation", Json.str "FOO"), ("txid", Json.num 7),
    ("table", Json.str "books"), ("row_before", Json.null),
    ("row_after", Json.null)])

/-- Concrete well-formed payload: operation = "INSERT", txid = 1,
table = "books", row_before = null, row_after = an empty object. -/
def goodPayload : Option Json :=
  some (Json.obj [("operation", Json.str "INSERT"), ("txid", Json.num 1),
    ("table", Json.str "books"), ("row_before", Json.null),
    ("row_after", Json.obj [])])

/-- The Event decoded from `goodPayload`. -/
def evGood : Event :=
  ⟨Json.num 1, EventKind.INSERT, Json.str "books", Json.null, Json.obj []⟩

/-- A model whose table does not match `evGood.table`. -/
def modelAuthors : Model := ⟨"authors"⟩

/-! ## Settings and SQL statements (utils.py lines 31-73) -/

/-- Models `settings.PGSIGNALS_PREFIX` (line 31), external configuration
fixed for the process. -/
def PREFIX_SETTING : String := "pgsignals"

/-- Models `settings.PGSIGNALS_DEFAULT_DATABASE` (line 33). -/
def DEFAULT_DATABASE : String := "default"

/-- Models `settings.PGSIGNALS_DEFAULT_SCHEMA` (line 32). -/
def DEFAULT_SCHEMA : String := "public"

/-- The SQL statement templates of utils.py lines 36-73, one constructor
per template, each carrying the values interpolated into it (the constant
prefix is `PREFIX_SETTING` throughout and is left implicit):
`createStagingTable` is the CREATE TABLE template of lines 36-41 (whose
SQL is moreover syntactically invalid: IF NOT EXISTS is placed after the
table name); `createEmitFunc` is the CREATE OR REPLACE FUNCTION template
of lines 43-63; `dropTrigger` is the DROP TRIGGER IF EXISTS template of
lines 65-67; `createTrigger` is the CREATE TRIGGER template of lines
69-73, with `operations` the string interpolated at line 70. -/
inductive SqlStmt where
  | createStagingTable (schema : String)
  | createEmitFunc (schema : String)
  | dropTrigger (schema table : String)
  | createTrigger (schema table operations : String)
deriving DecidableEq, Repr

/-- Embeds line 210: the string interpolated into the CREATE TRIGGER
template, joining the member values with " OR ". -/
def operations_sql (events : List EventKind) : String :=
  String.intercalate " OR " (events.map EventKind.value)

/-! ## DDL entry points (utils.py lines 185-266).  Each function returns
the list of statements it executes through `_execute_sql`, paired with the
database alias the connection is taken from; `create_emit_func_once` and
`bind_table` additionally thread the process-wide `_func_created` flag. -/

/-- Embeds `create_emit_func` (lines 250-261): formats CREATE_EMIT_FUNC
for the schema and executes it on the given database.  This is the ONLY
statement it executes: the CREATE_STAGING_TABLE template (lines 36-41) is
referenced nowhere in the module. -/
def create_emit_func (db schema : String) : List (String × SqlStmt) :=
  [(db, SqlStmt.createEmitFunc schema)]

/-- Embeds `create_emit_func_once` (lines 240-247) along the path where
the underlying DDL call returns normally (the failure path is modelled by
`create_emit_func_once_call` below): if the process-wide flag is not set,
`create_emit_func` is invoked and then the flag is set to True. -/
def create_emit_func_once (db schema : String) (fc : Bool) :
    Bool × List (String × SqlStmt) :=
  if ! fc then (true, create_emit_func db schema) else (fc, [])

/-- Embeds `unbind_table` (lines 224-237): formats DROP_TRIGGER for the
table and executes it on the given database. -/
def unbind_table (table_name db schema : String) : List (String × SqlStmt) :=
  [(db, SqlStmt.dropTrigger schema table_name)]

/-- Embeds `bind_table` (lines 201-221): first `unbind_table` (line 207),
then, if `len(events) > 0` (line 208), `create_emit_func_once` (line 209)
followed by one CREATE TRIGGER statement (lines 210-217). -/
def bind_table (table_name : String) (events : List EventKind)
    (db schema : String) (fc : Bool) : Bool × List (String × SqlStmt) :=
  let dropped := unbind_table table_name db schema
  if 0 < events.length then
    let once := create_emit_func_once db schema fc
    (once.1, dropped ++ once.2
      ++ [(db, SqlStmt.createTrigger schema table_name (operations_sql events))])
  else
    (fc, dropped)

/-- Embeds `bind_model` (lines 185-190): its body is
`return bind_table(django_model.objects.model._meta.db_table, events)` —
the `db` and `schema` parameters it accepts are not forwarded, so
`bind_table` runs with its own defaults DEFAULT_DATABASE and
DEFAULT_SCHEMA. -/
def bind_model (django_model : Model) (events : List EventKind)
    (db schema : String) (fc : Bool) : Bool × List (String × SqlStmt) :=
  bind_table django_model.db_table events DEFAULT_DATABASE DEFAULT_SCHEMA fc

/-- Embeds `unbind_model` (lines 193-198): its body is
`return unbind_table(django_model.objects.model._meta.db_table)` — again
the `db` and `schema` parameters are not forwarded. -/
def unbind_model (django_model : Model) (db schema : String) :
    List (String × SqlStmt) :=
  unbind_table django_model.db_table DEFAULT_DATABASE DEFAULT_SCHEMA

/-! ## Database state affected by the DDL statements -/

/-- Abstract state of the external database:  `triggers` is the multiset
of triggers present, identified by (database alias, schema, table) — the
trigger name is determined by the table as PREFIX_SETTING ++ "__" ++ table
(lines 66 and 70), so it carries no extra information; `emit_funcs` and
`staging_tables` record the (database, schema) pairs where the capture
routine and the staging table exist. -/
structure DbState where
  triggers : List (String × String × String)
  emit_funcs : List (String × String)
  staging_tables : List (String × String)

/-- The empty database: no triggers, no capture routine, no staging
table. -/
def initDb : DbState := ⟨[], [], []⟩

/-- Effect of one executed statement on the database state:  DROP TRIGGER
IF EXISTS removes any trigger of that name on that table; CREATE TRIGGER
adds one; CREATE OR REPLACE FUNCTION makes the routine exist; the staging
table statement would create the table (it is never executed by the
module, and its SQL is invalid — see `SqlStmt`). -/
def applyExec (st : DbState) (e : String × SqlStmt) : DbState :=
  match e.2 with
  | SqlStmt.createStagingTable schema =>
      ⟨st.triggers, st.emit_funcs, (e.1, schema) :: st.staging_tables⟩
  | SqlStmt.createEmitFunc schema =>
      ⟨st.triggers, (e.1, schema) :: st.emit_funcs, st.staging_tables⟩
  | SqlStmt.dropTrigger schema table =>
      ⟨st.triggers.filter (fun t => ! decide (t = (e.1, schema, table))),
        st.emit_funcs, st.staging_tables⟩
  | SqlStmt.createTrigger schema table _ops =>
      ⟨st.triggers ++ [(e.1, schema, table)], st.emit_funcs, st.staging_tables⟩

/-- Applies a list of executed statements in order. -/
def runExec (st : DbState) (es : List (String × SqlStmt)) : DbState :=
  es.foldl applyExec st

/-- Number of triggers present on the given (database, schema, table). -/
def countTrigger (st : DbState) (db schema table : String) : Nat :=
  (st.triggers.filter (fun t => decide (t = (db, schema, table)))).length

/-- Recognizes CREATE TRIGGER statements in an execution trace. -/
def isCreateTriggerExec : String × SqlStmt → Bool
  | (_, SqlStmt.createTrigger _ _ _) => true
  | _ => false

/-! ## The process-wide flag under possible DDL failure (claim C8) -/

/-- Embeds the initializer `_func_created: bool = False` (line 240). -/
def init_func_created : Bool := false

/-- Observable trace of `create_emit_func_once` calls in one process:
the current `_func_created` flag, how many times `create_emit_func` was
invoked, and how many of those invocations returned successfully. -/
structure OnceTrace where
  flag : Bool
  invocations : Nat
  successes : Nat

/-- The state at process start: flag `init_func_created`, nothing
invoked. -/
def initTrace : OnceTrace := ⟨init_func_created, 0, 0⟩

/-- Embeds one sequential call of `create_emit_func_once` (lines 241-247),
where `raises` says whether the underlying `create_emit_func` DDL raises
on this call.  If the flag is set, nothing happens.  Otherwise
`create_emit_func` is invoked; if it raises, the exception propagates
BEFORE the line 247 assignment, so the flag stays false; if it returns,
`_func_created = True` runs. -/
def create_emit_func_once_call (raises : Bool) (st : OnceTrace) : OnceTrace :=
  if st.flag then st
  else if raises then ⟨st.flag, st.invocations + 1, st.successes⟩
  else ⟨true, st.invocations + 1, st.successes + 1⟩

/-- Runs a sequence of `create_emit_func_once` calls (for example one per
`bind_table` call with a non-empty operation set, line 209), each entry
giving whether the underlying DDL raises there. -/
def run_once_calls (calls : List Bool) (st : OnceTrace) : OnceTrace :=
  calls.foldl (fun s r => create_emit_func_once_call r s) st

/-! ## Name resolution inside iter_notifies (claims C3, C4) -/

/-- Names bound at module level of utils.py: the imports (lines 1-12), the
dunder and logging names (lines 15-28), the settings constants (lines
31-33), the SQL templates (lines 36-73), and the classes, constants and
functions (lines 76-275).  The name "stop_secs" read at line 142 is not
among them. -/
def module_globals : List String :=
  ["enum", "dataclasses", "datetime", "functools", "select", "json",
   "logging", "Sequence", "Dict", "Any", "apps", "connections", "settings",
   "__all__", "log", "is_info", "PREFIX", "DEFAULT_SCHEMA",
   "DEFAULT_DATABASE", "CREATE_STAGING_TABLE", "CREATE_EMIT_FUNC",
   "DROP_TRIGGER", "CREATE_TRIGGER", "EventKind", "ALL_EVENTS", "Event",
   "_now", "listen", "bind_model", "unbind_model", "bind_table",
   "unbind_table", "_func_created", "create_emit_func_once",
   "create_emit_func", "_execute_sql", "_table_to_model"]

/-- Names local to `listen` (lines 117-182): its five parameters, and
every name assigned in its body (the import at line 133, the with-as at
line 135, lines 136, 138, 140, the for target at line 151, and the
assignments at lines 153, 155, 158, 159).  "stop_secs" is assigned
nowhere in `listen`, so it is not a closure variable of
`iter_notifies`. -/
def listen_local_names : List String :=
  ["db", "schema", "poll_timeout", "listen_timeout", "events_limit",
   "signals", "cursor", "conn", "started_at", "iter_notifies", "notify",
   "_notify", "e", "event", "sender"]

/-- The Python builtins (a representative subset containing every builtin
utils.py references; the full CPython builtins set also does not contain
"stop_secs"). -/
def py_builtins : List String :=
  ["any", "len", "print", "range", "isinstance", "str", "int", "bool",
   "dict", "list", "set", "tuple", "ValueError", "TypeError", "KeyError",
   "NameError", "Exception", "None", "True", "False"]

/-- Resolution of a name read inside the generator `iter_notifies` (lines
140-148): the generator assigns no local of its own, so a read falls back
to the enclosing function scope, then module globals, then builtins;
an unbound name raises NameError. -/
def resolve_in_iter_notifies (n : String) : Except PyExc Unit :=
  if listen_local_names.contains n || module_globals.contains n
      || py_builtins.contains n then
    Except.ok ()
  else Except.error (PyExc.nameError n)

/-- The first action the generator body performs when the for-loop at line
151 requests its first item: evaluate the guard `if stop_secs:` at line
142.  Since the declared parameter is named `listen_timeout` while the
loop reads `stop_secs`, this name resolution is the entire behavior of
the generator. -/
def iter_notifies_first_step : Except PyExc Unit :=
  resolve_in_iter_notifies "stop_secs"

/-- The statement executed at line 137. -/
def listen_channel_sql : String :=
  "LISTEN " ++ PREFIX_SETTING ++ "__events;"

/-- Embeds `listen` (lines 117-182) as a function of all five parameters:
it executes the LISTEN statement (line 137), records the start time (line
138), and then the for-loop (line 151) pulls the first item from
`iter_notifies`, running the generator body, whose first action is
`iter_notifies_first_step`.  The result is the list of statements executed
together with the exception, if any, that the call raises.  The dispatch
code (lines 151-177) is modelled by `processAll` as a function of the
sequence the iterator would yield.  Note that `events_limit` and
`listen_timeout` are not read anywhere in the body (the loop reads
`stop_secs` instead). -/
def listen (db schema : String) (poll_timeout : Nat)
    (listen_timeout events_limit : Option Nat) :
    List String × Option PyExc :=
  ([listen_channel_sql],
    match iter_notifies_first_step with
    | Except.error e => some e
    | Except.ok _ => none)

/-! ## The drain loop inside iter_notifies (claim C7) -/

/-- Embeds the inner drain loop (lines 147-148):
`while conn.notifies: yield conn.notifies.pop()`.  The psycopg2
`conn.notifies` list holds pending notifications in arrival order and
Python `list.pop()` with no argument removes and returns the LAST
element, so the loop yields the last pending notification, then drains
what is left. -/
def drainPending {α : Type} : List α → List α
  | [] => []
  | a :: as =>
      (a :: as).getLast (List.cons_ne_nil a as)
        :: drainPending ((a :: as).dropLast)
termination_by l => l.length
decreasing_by
  simp only [List.length_dropLast, List.length_cons]
  omega

/-! ## Helper lemmas -/

/-- Unfolding lemma for `drainPending` on a non-empty pending list. -/
theorem drainPending_ne_nil {α : Type} (l : List α) (h : l ≠ []) :
    drainPending l = l.getLast h :: drainPending l.dropLast := by
  cases l with
  | nil => exact absurd rfl h
  | cons a as => rw [drainPending]

/-- Popping from the tail until empty yields the reverse of the pending
list. -/
theorem drainPending_eq_reverse {α : Type} (l : List α) :
    drainPending l = l.reverse := by
  induction l using List.reverseRecOn with
  | nil => simp [drainPending]
  | append_singleton xs x ih =>
      rw [drainPending_ne_nil (xs ++ [x]) (by simp), List.getLast_concat,
        List.dropLast_concat, ih, List.reverse_concat]

/-- Elements removed by an inequality filter never reappear under the
matching equality filter. -/
theorem filter_eq_after_filter_ne {α : Type} [DecidableEq α]
    (l : List α) (k : α) :
    (l.filter (fun t => ! decide (t = k))).filter
        (fun t => decide (t = k)) = [] := by
  induction l with
  | nil => rfl
  | cons a l ih =>
      by_cases hak : a = k
      · simp [List.filter_cons, hak, ih]
      · simp [List.filter_cons, hak, ih]

/-- After one `bind_table` call with a non-empty operation set, the bound
table carries exactly one trigger, whatever the database state before. -/
theorem countTrigger_after_bind (st : DbState) (fc : Bool)
    (table db schema : String) (events : List EventKind)
    (h : 0 < events.length) :
    countTrigger (runExec st (bind_table table events db schema fc).2)
      db schema table = 1 := by
  cases fc with
  | false =>
      simp [bind_table, h, create_emit_func_once, create_emit_func,
        unbind_table, runExec, applyExec, countTrigger, List.filter_append,
        filter_eq_after_filter_ne]
  | true =>
      simp [bind_table, h, create_emit_func_once, unbind_table, runExec,
        applyExec, countTrigger, List.filter_append,
        filter_eq_after_filter_ne]

/-- Invariant of `run_once_calls`: while the flag is down no success has
been recorded, and the total number of successful installations never
exceeds one. -/
theorem once_calls_invariant_succ (calls : List Bool) :
    ∀ st : OnceTrace, (st.flag = false → st.successes = 0) →
    st.successes ≤ 1 →
    ((run_once_calls calls st).flag = false →
        (run_once_calls calls st).successes = 0)
    ∧ (run_once_calls calls st).successes ≤ 1 := by
  induction calls with
  | nil => intro st h1 h2; exact ⟨h1, h2⟩
  | cons r calls ih =>
      intro st h1 h2
      have hstep : run_once_calls (r :: calls) st
          = run_once_calls calls (create_emit_func_once_call r st) := rfl
      rw [hstep]
      cases hflag : st.flag with
      | true =>
          have hcall : create_emit_func_once_call r st = st := by
            simp [create_emit_func_once_call, hflag]
          rw [hcall]; exact ih st h1 h2
      | false =>
          have hs0 : st.successes = 0 := h1 hflag
          cases r with
          | true =>
              have hcall : create_emit_func_once_call true st
                  = ⟨st.flag, st.invocations + 1, st.successes⟩ := by
                simp [create_emit_func_once_call, hflag]
              rw [hcall]
              exact ih _ (fun _ => hs0) (by simp [hs0])
          | false =>
              have hcall : create_emit_func_once_call false st
                  = ⟨true, st.invocations + 1, st.successes + 1⟩ := by
                simp [create_emit_func_once_call, hflag]
              rw [hcall]
              exact ih _ (fun hff => by simp at hff) (by simp [hs0])

/-- Invariant of `run_once_calls` when no call fails: while the flag is
down nothing has been invoked, and the total number of invocations never
exceeds one. -/
theorem once_calls_invariant_inv (calls : List Bool) :
    ∀ st : OnceTrace, (∀ c ∈ calls, c = false) →
    (st.flag = false → st.invocations = 0) → st.invocations ≤ 1 →
    (run_once_calls calls st).invocations ≤ 1 := by
  induction calls with
  | nil => intro st _ _ h2; exact h2
  | cons r calls ih =>
      intro st hall h1 h2
      have hr : r = false := hall r (List.mem_cons_self r calls)
      subst hr
      have hall2 : ∀ c ∈ calls, c = false :=
        fun c hc => hall c (List.mem_cons_of_mem _ hc)
      have hstep : run_once_calls (false :: calls) st
          = run_once_calls calls (create_emit_func_once_call false st) := rfl
      rw [hstep]
      cases hflag : st.flag with
      | true =>
          have hcall : create_emit_func_once_call false st = st := by
            simp [create_emit_func_once_call, hflag]
          rw [hcall]; exact ih _ hall2 h1 h2
      | false =>
          have hi0 : st.invocations = 0 := h1 hflag
          have hcall : create_emit_func_once_call false st
              = ⟨true, st.invocations + 1, st.successes + 1⟩ := by
            simp [create_emit_func_once_call, hflag]
          rw [hcall]
          exact ih _ hall2 (fun hff => by simp at hff) (by simp [hi0])

/-- Every operation kind makes the dispatcher send at least the generic
signal. -/
theorem dispatchSignals_length_pos (k : EventKind) :
    0 < (dispatchSignals k).length := by
  cases k <;> decide

/-! ## Claims -/

/-- C1: the claim states that an UPDATE event invokes exactly the groups
generic, insert-or-update and update-only, never the create group.  On
the code, an UPDATE event sends only the generic and the insert-or-update
signals: the update-only send sits in an elif branch behind is_save, and
is_update implies is_save, so the update-only signal is unreachable for
every operation kind.  This theorem evaluates the dispatch code at the
failing input, supporting the code_bug verdict. -/
theorem claim_C1_update_dispatch :
    dispatchSignals EventKind.UPDATE
        = [Signal.pgsignals_event, Signal.pgsignals_insert_or_update_event]
    ∧ Signal.pgsignals_update_event ∉ dispatchSignals EventKind.UPDATE
    ∧ ∀ k : EventKind,
        Signal.pgsignals_update_event ∉ dispatchSignals k := by
  refine ⟨rfl, by decide, ?_⟩
  intro k; cases k <;> decide

/-- C2: the claim states that a payload whose operation string is not
INSERT, UPDATE or DELETE is logged and skipped and the loop continues.
On the code, only json.JSONDecodeError is caught; the ValueError raised
by the EventKind call on operation "FOO" propagates, terminating the
loop so that a subsequent well-formed payload is never dispatched (second
conjunct).  Genuinely malformed JSON is skipped and a following
well-formed payload is still dispatched (third conjunct), so the claim
holds only for the JSON-syntax half.  This theorem evaluates the loop at
the failing input, supporting the code_bug verdict. -/
theorem claim_C2_decode_crash :
    processNotify [] fooPayload = Except.error PyExc.valueError
    ∧ processAll [] [fooPayload, goodPayload] = ([], some PyExc.valueError)
    ∧ processAll [] [none, goodPayload]
        = ([(evGood,
            [((none : Option Model), Signal.pgsignals_event),
             ((none : Option Model), Signal.pgsignals_insert_event),
             ((none : Option Model), Signal.pgsignals_insert_or_update_event)])],
           none) :=
  ⟨rfl, rfl, rfl⟩

/-- C3: the claim states that listen with listen_timeout = T stops within
T time units and that without it the stop condition never fires.  On the
code, the loop guard reads the name stop_secs, which is bound neither in
listen (whose parameter is named listen_timeout), nor at module level,
nor among the builtins, so the first loop iteration raises NameError for
every argument combination: the listener never runs at all.  This theorem
evaluates the code, supporting the code_bug verdict. -/
theorem claim_C3_listen_nameerror (db schema : String) (poll_timeout : Nat)
    (listen_timeout events_limit : Option Nat) :
    (listen db schema poll_timeout listen_timeout events_limit).2
        = some (PyExc.nameError "stop_secs")
    ∧ listen_local_names.contains "stop_secs" = false
    ∧ module_globals.contains "stop_secs" = false
    ∧ py_builtins.contains "stop_secs" = false :=
  ⟨rfl, rfl, rfl, rfl⟩

/-- C4: the claim states that listen with events_limit = N dispatches at
most N events and then stops.  On the code, events_limit is accepted but
never read anywhere in the body, so the behavior of listen is literally
independent of it (first conjunct), and the loop body, fed two pending
events under any limit, dispatches both of them (second conjunct).  This
supports the code_bug verdict. -/
theorem claim_C4_events_limit_unused (db schema : String)
    (poll_timeout : Nat) (listen_timeout events_limit₁ events_limit₂ : Option Nat) :
    listen db schema poll_timeout listen_timeout events_limit₁
        = listen db schema poll_timeout listen_timeout events_limit₂
    ∧ (processAll [] [goodPayload, goodPayload]).1.length = 2 :=
  ⟨rfl, rfl⟩

/-- C5: the claim states that create_emit_func creates the staging log
table if absent and re-creates the capture routine.  On the code,
create_emit_func executes exactly one statement, the CREATE OR REPLACE
FUNCTION; the CREATE_STAGING_TABLE template is never executed (it is
referenced nowhere in the module), so after installation on an empty
database the staging table still does not exist and the routine would
fail at its INSERT.  This theorem evaluates the installation, supporting
the code_bug verdict. -/
theorem claim_C5_no_staging_table (db schema : String) :
    create_emit_func db schema = [(db, SqlStmt.createEmitFunc schema)]
    ∧ (∀ s, (db, SqlStmt.createStagingTable s) ∉ create_emit_func db schema)
    ∧ (runExec initDb (create_emit_func db schema)).staging_tables = [] := by
  refine ⟨rfl, ?_, rfl⟩
  intro s hmem
  simp [create_emit_func] at hmem

/-- C6: bind_table first drops any existing trigger for the table and,
for a non-empty operation set, creates exactly one new trigger; calling
it twice with the same arguments leaves exactly one trigger on the table
(first and second conjuncts: one trigger after both the first and the
second call, from any starting state); its statement list contains
exactly one CREATE TRIGGER (third conjunct); and with an empty operation
set it performs nothing beyond the unbind (fourth conjunct). -/
theorem claim_C6_bind_idempotent (st : DbState) (fc : Bool)
    (table db schema : String) (events : List EventKind)
    (h : 0 < events.length) :
    countTrigger (runExec st (bind_table table events db schema fc).2)
        db schema table = 1
    ∧ countTrigger
        (runExec (runExec st (bind_table table events db schema fc).2)
          (bind_table table events db schema
            (bind_table table events db schema fc).1).2)
        db schema table = 1
    ∧ ((bind_table table events db schema fc).2.filter
        isCreateTriggerExec).length = 1
    ∧ bind_table table [] db schema fc
        = (fc, [(db, SqlStmt.dropTrigger schema table)]) := by
  refine ⟨countTrigger_after_bind st fc table db schema events h,
    countTrigger_after_bind _ _ table db schema events h, ?_, ?_⟩
  · cases fc <;>
      simp [bind_table, h, create_emit_func_once, create_emit_func,
        unbind_table, isCreateTriggerExec]
  · simp [bind_table, unbind_table]

/-- Witness for C6 at a concrete input: binding the table books for
INSERT on an empty database leaves exactly one trigger. -/
theorem claim_C6_witness :
    countTrigger (runExec initDb
        (bind_table "books" [EventKind.INSERT] "default" "public" false).2)
      "default" "public" "books" = 1 :=
  (claim_C6_bind_idempotent initDb false "books" "default" "public"
    [EventKind.INSERT] (by decide)).1

/-- C8: the process-wide flag starts false; a call that finds it set does
nothing; a failing installation leaves it false; a successful one sets
it; across any sequence of sequential calls at most one installation
succeeds; and when no installation fails, create_emit_func is invoked at
most once in the whole process. -/
theorem claim_C8_func_created_flag :
    init_func_created = false
    ∧ (∀ (r : Bool) (st : OnceTrace), st.flag = true →
        create_emit_func_once_call r st = st)
    ∧ (∀ st : OnceTrace, st.flag = false →
        (create_emit_func_once_call true st).flag = false)
    ∧ (∀ st : OnceTrace, st.flag = false →
        (create_emit_func_once_call false st).flag = true)
    ∧ (∀ calls : List Bool,
        (run_once_calls calls initTrace).successes ≤ 1)
    ∧ (∀ calls : List Bool, (∀ c ∈ calls, c = false) →
        (run_once_calls calls initTrace).invocations ≤ 1) := by
  refine ⟨rfl, ?_, ?_, ?_, ?_, ?_⟩
  · intro r st hf; simp [create_emit_func_once_call, hf]
  · intro st hf; simp [create_emit_func_once_call, hf]
  · intro st hf; simp [create_emit_func_once_call, hf]
  · intro calls
    exact (once_calls_invariant_succ calls initTrace (fun _ => rfl)
      (by decide)).2
  · intro calls hall
    exact once_calls_invariant_inv calls initTrace hall (fun _ => rfl)
      (by decide)

/-- Witness for C8 at a concrete input: two successful sequential calls
invoke the installation at most once. -/
theorem claim_C8_witness :
    (run_once_calls [false, false] initTrace).invocations ≤ 1 :=
  claim_C8_func_created_flag.2.2.2.2.2 [false, false] (by decide)

/-- C9: when the table of a decoded event matches no model, sender
resolution returns None (an explicit absent value, not an exception) and
logs an error, and dispatch still proceeds: every matching handler group
is invoked with the absent sender, and at least one group (the generic
one) is always invoked, so the event is not dropped. -/
theorem claim_C9_resolution_miss (models : List Model) (ev : Event)
    (t : String) (hmiss : ∀ m ∈ models, m.db_table ≠ t)
    (htable : ev.table = Json.str t) :
    (_table_to_model models ev.table).1 = none
    ∧ (_table_to_model models ev.table).2
        = [LogLine.error_no_model (Json.str t)]
    ∧ dispatchEvent models ev
        = (dispatchSignals ev.operation).map
            (fun s => ((none : Option Model), s))
    ∧ 0 < (dispatchEvent models ev).length := by
  have hfind : models.find? (fun m => pyEqStr m.db_table ev.table) = none := by
    rw [htable]
    refine List.find?_eq_none.mpr ?_
    intro m hm
    simp only [pyEqStr, beq_iff_eq]
    exact hmiss m hm
  have h1 : _table_to_model models ev.table
      = (none, [LogLine.error_no_model ev.table]) := by
    simp only [_table_to_model, hfind]
  have h3 : dispatchEvent models ev
      = (dispatchSignals ev.operation).map
          (fun s => ((none : Option Model), s)) := by
    simp [dispatchEvent, h1]
  refine ⟨by rw [h1], by rw [h1, htable], h3, ?_⟩
  rw [h3, List.length_map]
  exact dispatchSignals_length_pos ev.operation

/-- Witness for C9 at a concrete input: the table books matches no model
in a registry holding only the table authors, and the INSERT event is
still dispatched to all three matching groups with sender None. -/
theorem claim_C9_witness :
    dispatchEvent [modelAuthors] evGood
      = (dispatchSignals evGood.operation).map
          (fun s => ((none : Option Model), s)) :=
  (claim_C9_resolution_miss [modelAuthors] evGood "books"
    (by decide) rfl).2.2.1

/-- C7 counterexample: a wake cycle that drains the batch of pending
notifications 1 then 2 (arrival order) yields them as 2 then 1 — the
reverse, not the arrival order claimed. -/
theorem claim_C7_counterexample :
    drainPending ([1, 2] : List Nat) = [2, 1]
    ∧ drainPending ([1, 2] : List Nat) ≠ [1, 2] := by
  have h := drainPending_eq_reverse ([1, 2] : List Nat)
  constructor
  · rw [h]; rfl
  · rw [h]; decide

/-- C7 amended: within a wake cycle the drained batch is yielded in
REVERSE arrival order, because the drain loop pops each notification from
the tail of the pending list; arrival order is preserved only for batches
of size at most one. -/
theorem claim_C7_reverse_drain (α : Type) (pending : List α) :
    drainPending pending = pending.reverse :=
  drainPending_eq_reverse pending

/-- C10: bind_model and unbind_model accept db and schema arguments but
do not forward them: their results are independent of those arguments and
equal to calling bind_table and unbind_table on the model table with the
default database and default schema. -/
theorem claim_C10_wrappers_ignore_db_schema (m : Model)
    (events : List EventKind) (db₁ schema₁ db₂ schema₂ : String)
    (fc : Bool) :
    bind_model m events db₁ schema₁ fc = bind_model m events db₂ schema₂ fc
    ∧ bind_model m events db₁ schema₁ fc
        = bind_table m.db_table events DEFAULT_DATABASE DEFAULT_SCHEMA fc
    ∧ unbind_model m db₁ schema₁ = unbind_model m db₂ schema₂
    ∧ unbind_model m db₁ schema₁
        = unbind_table m.db_table DEFAULT_DATABASE DEFAULT_SCHEMA :=
  ⟨rfl, rfl, rfl, rfl⟩
